import Mathlib

/-!
Verification of the gate-backend RBAC and sync core.

The Go source is shallowly embedded: entries, users and checkpoints become
Lean structures; the Firestore document store becomes an association list
keyed by document id, with Set-semantics (replace-or-append) for writes;
handlers become pure functions threading the store state explicitly.
Timestamps are modelled as integers (only their ordering matters to the
code under verification); roles are strings, exactly as in the Go model
(UserRole is a string type there), so unrecognized roles are expressible.
-/

namespace Gatekeeper

/-- Roles, as the string constants of models.go. -/
def RoleAdmin : String := "ADMIN"

/-- Supervisor role string constant. -/
def RoleSupervisor : String := "SUPERVISOR"

/-- Gate-operator role string constant. -/
def RoleGateOperator : String := "GATE_OPERATOR"

/-- Entry, from models.go (payload modelled as a key-value list). -/
structure Entry where
  record_id : String
  checkpoint_id : String
  entry_type : String
  logging_user_id : String
  client_ts : Int
  updated_at : Int
  created_at : Int
  status : String
  payload : List (String × String)
  deriving Repr, DecidableEq

/-- User, from models.go.  As in Go, an unset supervisor_id is the empty
string and the operator and managed lists may be empty. -/
structure User where
  user_id : String
  username : String
  role : String
  allowed_checkpoints : List String
  supervisor_id : String
  managed_operators : List String
  last_login : Int
  deriving Repr, DecidableEq

/-- filterEntriesByRole, from the sync handler: admins see everything;
supervisors see entries logged by their managed operators (explicitly the
empty list when managed_operators is empty); gate operators see their own
entries; any other role sees nothing. -/
def filterEntriesByRole (entries : List Entry) (user : User) : List Entry :=
  if user.role = RoleAdmin then
    entries
  else if user.role = RoleSupervisor then
    if user.managed_operators.length = 0 then
      []
    else
      entries.filter (fun e => user.managed_operators.contains e.logging_user_id)
  else if user.role = RoleGateOperator then
    entries.filter (fun e => e.logging_user_id = user.user_id)
  else
    []

/-- Modelled from the spec: the role-visibility table of section 4.3
(visible_entries), written independently of the handler code so the two can
be compared: Admin sees all, Supervisor sees entries authored by a managed
operator, GateOperator sees own entries, anything else sees none. -/
def visibleEntriesSpec (entries : List Entry) (user : User) : List Entry :=
  if user.role = RoleAdmin then
    entries
  else if user.role = RoleSupervisor then
    entries.filter (fun e => e.logging_user_id ∈ user.managed_operators)
  else if user.role = RoleGateOperator then
    entries.filter (fun e => e.logging_user_id = user.user_id)
  else
    []

/-! ## The document store -/

/-- Set-semantics write of a Firestore Doc(id).Set call on an association
list: replace in place when the key exists, else append. -/
def setKey {α : Type} (s : List (String × α)) (id : String) (v : α) : List (String × α) :=
  match s with
  | [] => [(id, v)]
  | (k, w) :: rest => if k = id then (id, v) :: rest else (k, w) :: setKey rest id v

/-- Document lookup by id (Firestore Doc(id).Get). -/
def getKey {α : Type} (s : List (String × α)) (id : String) : Option α :=
  match s with
  | [] => none
  | (k, w) :: rest => if k = id then some w else getKey rest id

/-- Document removal by id (Firestore Doc(id).Delete). -/
def delKey {α : Type} (s : List (String × α)) (id : String) : List (String × α) :=
  s.filter (fun p => p.1 ≠ id)

/-- The entries collection: documents keyed by record id. -/
abbrev EntryStore := List (String × Entry)

/-- The users collection: documents keyed by user id. -/
abbrev UserStore := List (String × User)

/-- The passwords collection, reduced to the stored hash per user id. -/
abbrev PasswordStore := List (String × String)

/-- CreateEntry, from firestore.go: a Set on the entries collection keyed by
the record id; the entry is stored verbatim (no field is modified). -/
def CreateEntry (s : EntryStore) (entry : Entry) : EntryStore :=
  setKey s entry.record_id entry

/-! ## Sync push -/

/-- Mutable state of the push loop in SyncHandler.Push: the store plus the
accepted and rejected counters and the rejected id list. -/
structure PushState where
  store : EntryStore
  accepted : Nat
  rejected : Nat
  rejectedIDs : List String
  deriving Repr, DecidableEq

/-- Body of the per-entry loop of SyncHandler.Push: reject when the entry is
attributed to someone other than the requester; for gate operators, reject
when the checkpoint is not in the allowlist (the Go code scans
AllowedCheckpoints linearly, i.e. list membership); otherwise persist via
CreateEntry and count the entry accepted. -/
def pushStep (user : User) (st : PushState) (entry : Entry) : PushState :=
  if entry.logging_user_id ≠ user.user_id then
    { st with rejected := st.rejected + 1,
              rejectedIDs := st.rejectedIDs ++ [entry.record_id] }
  else if user.role = RoleGateOperator ∧ entry.checkpoint_id ∉ user.allowed_checkpoints then
    { st with rejected := st.rejected + 1,
              rejectedIDs := st.rejectedIDs ++ [entry.record_id] }
  else
    { st with store := CreateEntry st.store entry,
              accepted := st.accepted + 1 }

/-- SyncHandler.Push over a decoded batch: fold the per-entry loop over the
submitted entries, starting from zero counters. -/
def pushBatch (user : User) (entries : List Entry) (store : EntryStore) : PushState :=
  entries.foldl (pushStep user) { store := store, accepted := 0, rejected := 0, rejectedIDs := [] }

/-- Success flag of the push response: rejected == 0. -/
def pushSuccess (st : PushState) : Bool := st.rejected == 0

/-- The per-entry rejection condition of the push loop, as a predicate. -/
def pushEntryRejected (user : User) (entry : Entry) : Bool :=
  decide (entry.logging_user_id ≠ user.user_id) ||
    (decide (user.role = RoleGateOperator) && decide (entry.checkpoint_id ∉ user.allowed_checkpoints))

/-! ## Sync pull -/

/-- GetAllEntries, from firestore.go: every document of the collection. -/
def getAllEntries (store : EntryStore) : List Entry :=
  store.map Prod.snd

/-- GetEntriesSince, from firestore.go: the Firestore query filters on
created_at strictly greater than the given timestamp. -/
def getEntriesSince (store : EntryStore) (since : Int) : List Entry :=
  (store.map Prod.snd).filter (fun e => since < e.created_at)

/-- SyncHandler.Pull: fetch (delta when a since parameter was supplied, all
otherwise), filter by role, answer with the list and its length. -/
def pull (store : EntryStore) (user : User) (since : Option Int) : List Entry × Nat :=
  let entries :=
    match since with
    | some t => getEntriesSince store t
    | none => getAllEntries store
  let filtered := filterEntriesByRole entries user
  (filtered, filtered.length)

/-- Modelled from the spec: the fetch that section 4.4 prescribes for Pull,
entries whose updated_at is strictly greater than the watermark. -/
def pullSpecFetch (store : EntryStore) (t : Int) : List Entry :=
  (store.map Prod.snd).filter (fun e => t < e.updated_at)

/-! ## Passwords -/

/-- MinPasswordLength, from the auth package. -/
def MinPasswordLength : Nat := 8

/-- Modelled from the spec: bcrypt.GenerateFromPassword is an external
hashing primitive (the spec treats hash as an opaque digest capability);
it is modelled as a pure placeholder that always yields a digest. -/
def bcryptGenerateFromPassword (password : String) : String :=
  "bcrypt-digest:" ++ password

/-- Letter test of the strength loop: an ASCII letter in either case. -/
def isLetterChar (c : Char) : Bool :=
  (decide ('a' ≤ c) && decide (c ≤ 'z')) || (decide ('A' ≤ c) && decide (c ≤ 'Z'))

/-- Digit test of the strength loop: an ASCII digit. -/
def isNumberChar (c : Char) : Bool :=
  decide ('0' ≤ c) && decide (c ≤ '9')

/-- HashPassword, from the auth package: only the length is checked (Go
len(password) is the UTF-8 byte length); on success bcrypt produces the
digest. -/
def HashPassword (password : String) : Except String String :=
  if password.utf8ByteSize < MinPasswordLength then
    Except.error "password must be at least 8 characters"
  else
    Except.ok (bcryptGenerateFromPassword password)

/-- ValidatePasswordStrength, from the auth package: length at least 8
bytes, then one pass over the runes looking for at least one letter and at
least one digit. -/
def ValidatePasswordStrength (password : String) : Except String Unit :=
  if password.utf8ByteSize < MinPasswordLength then
    Except.error "password must be at least 8 characters"
  else
    let hasLetter := password.data.any isLetterChar
    let hasNumber := password.data.any isNumberChar
    if !hasLetter then
      Except.error "password must contain at least one letter"
    else if !hasNumber then
      Except.error "password must contain at least one number"
    else
      Except.ok ()

/-! ## Password reset -/

deriving instance DecidableEq for Except

/-- HTTP-level error classes used by the handlers (400, 404, 403, 500). -/
inductive ApiError where
  | validation (msg : String)
  | notFound
  | forbidden
  | internal
  deriving Repr, DecidableEq

/-- Store operations the reset handler can perform, recorded as a trace so
that absence of reads and writes is expressible. -/
inductive StoreOp where
  | getUserRead (id : String)
  | storePasswordWrite (id : String)
  deriving Repr, DecidableEq

/-- Outcome of SupervisorHandler.ResetPassword: HTTP result, the password
collection afterwards, and the trace of store operations performed. -/
structure ResetOutcome where
  result : Except ApiError Unit
  passwords : PasswordStore
  ops : List StoreOp
  deriving Repr, DecidableEq

/-- SupervisorHandler.ResetPassword: required-field check, strength check,
target lookup, supervisor scope check (the Go code scans ManagedOperators,
i.e. list membership, nil-safe), hash, store.  The order is exactly that of
the source; each early return leaves the password store untouched and the
trace records which store calls happened before it. -/
def resetPassword (users : UserStore) (passwords : PasswordStore)
    (requester : User) (reqUserID reqNewPassword : String) : ResetOutcome :=
  if reqUserID = "" ∨ reqNewPassword = "" then
    { result := Except.error (ApiError.validation "User ID and new password are required"),
      passwords := passwords, ops := [] }
  else
    match ValidatePasswordStrength reqNewPassword with
    | Except.error msg =>
        { result := Except.error (ApiError.validation msg), passwords := passwords, ops := [] }
    | Except.ok _ =>
      match getKey users reqUserID with
      | none =>
          { result := Except.error ApiError.notFound, passwords := passwords,
            ops := [StoreOp.getUserRead reqUserID] }
      | some _ =>
        if requester.role = RoleSupervisor ∧ reqUserID ∉ requester.managed_operators then
          { result := Except.error ApiError.forbidden, passwords := passwords,
            ops := [StoreOp.getUserRead reqUserID] }
        else
          match HashPassword reqNewPassword with
          | Except.error _ =>
              { result := Except.error ApiError.internal, passwords := passwords,
                ops := [StoreOp.getUserRead reqUserID] }
          | Except.ok h =>
              { result := Except.ok (), passwords := setKey passwords reqUserID h,
                ops := [StoreOp.getUserRead reqUserID, StoreOp.storePasswordWrite reqUserID] }

/-! ## User deletion -/

/-- AdminHandler.DeleteUser: required-field check, self-deletion check,
target lookup; then, when the target has a supervisor_id, that supervisor
(if found) has the target filtered out of its managed_operators; finally the
target document is deleted.  Nothing else is repaired: in particular the
supervisor_id fields of operators managed by a deleted supervisor are left
as they were. -/
def deleteUserHandler (store : UserStore) (adminUser : User) (reqUserID : String) :
    Except ApiError UserStore :=
  if reqUserID = "" then
    Except.error (ApiError.validation "User ID is required")
  else if reqUserID = adminUser.user_id then
    Except.error (ApiError.validation "Cannot delete your own account")
  else
    match getKey store reqUserID with
    | none => Except.error ApiError.notFound
    | some user =>
      let store1 :=
        if user.supervisor_id ≠ "" then
          match getKey store user.supervisor_id with
          | some supervisor =>
              setKey store supervisor.user_id
                { supervisor with
                    managed_operators :=
                      supervisor.managed_operators.filter (fun opID => opID ≠ reqUserID) }
          | none => store
        else store
      Except.ok (delKey store1 reqUserID)

/-! ## Concrete fixtures used by counterexamples and witnesses -/

/-- Gate operator op_east of the seed data, allowed at CP-EAST-MAIN. -/
def exOpEast : User :=
  { user_id := "user-op-east", username := "op_east", role := RoleGateOperator,
    allowed_checkpoints := ["CP-EAST-MAIN"], supervisor_id := "user-supervisor-john",
    managed_operators := [], last_login := 0 }

/-- Admin user of the seed data. -/
def exAdmin : User :=
  { user_id := "user-admin", username := "admin", role := RoleAdmin,
    allowed_checkpoints := [], supervisor_id := "", managed_operators := [],
    last_login := 0 }

/-- Supervisor john of the seed data, managing op_east. -/
def exSupervisor : User :=
  { user_id := "user-supervisor-john", username := "supervisor_john", role := RoleSupervisor,
    allowed_checkpoints := ["CP-EAST-MAIN", "CP-NORTH-01"], supervisor_id := "",
    managed_operators := ["user-op-east"], last_login := 0 }

/-- Entry created long ago (created_at 0) but recently updated (updated_at
10): distinguishes a created_at fetch from an updated_at fetch. -/
def exC3Entry : Entry :=
  { record_id := "r1", checkpoint_id := "CP-EAST-MAIN", entry_type := "PERSONNEL",
    logging_user_id := "user-op-east", client_ts := 0, updated_at := 10,
    created_at := 0, status := "ACTIVE", payload := [] }

/-- Store holding only exC3Entry. -/
def exC3Store : EntryStore := [("r1", exC3Entry)]

/-- Previously stored version of record r1, with updated_at 5. -/
def exC4Old : Entry :=
  { record_id := "r1", checkpoint_id := "CP-EAST-MAIN", entry_type := "PERSONNEL",
    logging_user_id := "user-op-east", client_ts := 5, updated_at := 5,
    created_at := 5, status := "ACTIVE", payload := [] }

/-- Client resubmission of record r1 carrying an older updated_at of 3. -/
def exC4New : Entry :=
  { record_id := "r1", checkpoint_id := "CP-EAST-MAIN", entry_type := "PERSONNEL",
    logging_user_id := "user-op-east", client_ts := 3, updated_at := 3,
    created_at := 0, status := "ACTIVE", payload := [] }

/-- Store holding the previously stored version of r1. -/
def exC4Store : EntryStore := [("r1", exC4Old)]

/-- User store for the supervisor-deletion scenario: the admin, supervisor
sup-1 managing op-east, and operator op-east pointing back at sup-1. -/
def exC6Sup : User :=
  { user_id := "sup-1", username := "sup1", role := RoleSupervisor,
    allowed_checkpoints := [], supervisor_id := "",
    managed_operators := ["op-east"], last_login := 0 }

/-- Operator op-east whose supervisor_id points at sup-1. -/
def exC6Op : User :=
  { user_id := "op-east", username := "op_east", role := RoleGateOperator,
    allowed_checkpoints := ["CP-EAST-MAIN"], supervisor_id := "sup-1",
    managed_operators := [], last_login := 0 }

/-- The user collection before the admin deletes sup-1. -/
def exC6Store : UserStore :=
  [("user-admin", exAdmin), ("sup-1", exC6Sup), ("op-east", exC6Op)]

/-- The user collection deleteUserHandler produces for that deletion. -/
def exC6After : UserStore :=
  [("user-admin", exAdmin), ("op-east", exC6Op)]

/-- An entry op_east may legitimately push (own id, allowed checkpoint). -/
def exC7Entry : Entry :=
  { record_id := "r7", checkpoint_id := "CP-EAST-MAIN", entry_type := "TRUCK",
    logging_user_id := "user-op-east", client_ts := 1, updated_at := 1,
    created_at := 1, status := "ACTIVE", payload := [("plate", "UAX 123")] }

/-- User collection for the reset-password scenarios: the supervisor and the
managed operator exist. -/
def exC10Users : UserStore :=
  [("user-supervisor-john", exSupervisor), ("user-op-east", exOpEast)]

/-! ## Role visibility (C1) -/

theorem filterEntriesByRole_eq_spec (entries : List Entry) (user : User) :
    filterEntriesByRole entries user = visibleEntriesSpec entries user := by
  unfold filterEntriesByRole visibleEntriesSpec
  by_cases hA : user.role = RoleAdmin
  · simp [hA]
  · by_cases hS : user.role = RoleSupervisor
    · simp only [hA, if_false, hS, if_true]
      rcases h : user.managed_operators with _ | ⟨op, ops⟩
      · simp [h, List.filter_eq_nil_iff]
      · simp [h, List.elem_iff]
    · simp [hA, hS]

/-- Claim C1: for every user and entry list, the visibility filter returns
exactly the entries prescribed by the role table: all entries for an Admin;
for a Supervisor exactly the entries whose logging_user_id is among the
managed_operators of the requester (hence the empty list when
managed_operators is empty); for a GateOperator exactly the entries whose
logging_user_id is the user_id of the requester; and the empty list for any
other role. -/
theorem filterEntriesByRole_role_table (entries : List Entry) (user : User) :
    filterEntriesByRole entries user = visibleEntriesSpec entries user :=
  filterEntriesByRole_eq_spec entries user

/-! ## Push authorization and batch bookkeeping (C2, C5) -/

theorem pushStep_eq (user : User) (st : PushState) (entry : Entry) :
    pushStep user st entry =
      if pushEntryRejected user entry then
        { st with rejected := st.rejected + 1,
                  rejectedIDs := st.rejectedIDs ++ [entry.record_id] }
      else
        { st with store := CreateEntry st.store entry,
                  accepted := st.accepted + 1 } := by
  unfold pushStep pushEntryRejected
  by_cases h1 : entry.logging_user_id = user.user_id
  · by_cases h2 : user.role = RoleGateOperator
    · by_cases h3 : entry.checkpoint_id ∈ user.allowed_checkpoints
      · simp [h1, h2, h3]
      · simp [h1, h2, h3]
    · simp [h1, h2]
  · simp [h1]

theorem foldl_pushStep (user : User) (entries : List Entry) (st : PushState) :
    entries.foldl (pushStep user) st =
      { store := (entries.filter (fun e => !pushEntryRejected user e)).foldl CreateEntry st.store,
        accepted := st.accepted + (entries.filter (fun e => !pushEntryRejected user e)).length,
        rejected := st.rejected + (entries.filter (fun e => pushEntryRejected user e)).length,
        rejectedIDs := st.rejectedIDs ++
          (entries.filter (fun e => pushEntryRejected user e)).map Entry.record_id } := by
  induction entries generalizing st with
  | nil => simp
  | cons e rest ih =>
    rcases h : pushEntryRejected user e with _ | _
    · simp only [List.foldl_cons, pushStep_eq, h, Bool.false_eq_true, if_false, ih,
        List.filter_cons, Bool.not_false, if_true]
      simp [h]
      omega
    · simp only [List.foldl_cons, pushStep_eq, h, if_true, ih, List.filter_cons,
        Bool.not_true, Bool.false_eq_true, if_false]
      simp [h]
      omega

theorem pushBatch_eq (user : User) (entries : List Entry) (store : EntryStore) :
    pushBatch user entries store =
      { store := (entries.filter (fun e => !pushEntryRejected user e)).foldl CreateEntry store,
        accepted := (entries.filter (fun e => !pushEntryRejected user e)).length,
        rejected := (entries.filter (fun e => pushEntryRejected user e)).length,
        rejectedIDs := (entries.filter (fun e => pushEntryRejected user e)).map Entry.record_id } := by
  unfold pushBatch
  rw [foldl_pushStep]
  simp

theorem pushEntryRejected_iff (user : User) (entry : Entry) :
    pushEntryRejected user entry = true ↔
      (entry.logging_user_id ≠ user.user_id ∨
        (user.role = RoleGateOperator ∧ entry.checkpoint_id ∉ user.allowed_checkpoints)) := by
  unfold pushEntryRejected
  simp

/-- Claim C2: in a push batch, an entry is rejected (its record id recorded,
nothing persisted for it) exactly when it is attributed to a user other than
the requester, or the requester is a GateOperator and the checkpoint is
outside the allowlist; every entry passing both checks is handed to
persistence (CreateEntry), in order. -/
theorem push_per_entry_write_authorization (user : User) (entries : List Entry)
    (store : EntryStore) :
    (∀ e, pushEntryRejected user e = true ↔
      (e.logging_user_id ≠ user.user_id ∨
        (user.role = RoleGateOperator ∧ e.checkpoint_id ∉ user.allowed_checkpoints))) ∧
    (pushBatch user entries store).rejectedIDs
      = (entries.filter (fun e => pushEntryRejected user e)).map Entry.record_id ∧
    (pushBatch user entries store).store
      = (entries.filter (fun e => !pushEntryRejected user e)).foldl CreateEntry store := by
  refine ⟨fun e => pushEntryRejected_iff user e, ?_, ?_⟩ <;> rw [pushBatch_eq]

theorem filter_length_partition {α : Type} (p : α → Bool) (l : List α) :
    (l.filter (fun a => !p a)).length + (l.filter p).length = l.length := by
  induction l with
  | nil => simp
  | cons a l ih => rcases h : p a with _ | _ <;> simp [h, ← ih] <;> omega

/-- Claim C5: every submitted entry is counted exactly once (accepted plus
rejected equals the batch size), rejected equals the number of recorded
rejected ids, success holds exactly when nothing was rejected, and the batch
is processed entrywise: the outcome on a batch xs ++ ys is the outcome on xs
followed by the outcome on ys, so rejections in one part never block the
processing or persistence of the other. -/
theorem push_batch_counts_and_per_entry_isolation (user : User)
    (entries xs ys : List Entry) (store : EntryStore) :
    (pushBatch user entries store).accepted + (pushBatch user entries store).rejected
        = entries.length ∧
    (pushBatch user entries store).rejected
        = (pushBatch user entries store).rejectedIDs.length ∧
    (pushSuccess (pushBatch user entries store) = true
        ↔ (pushBatch user entries store).rejected = 0) ∧
    pushBatch user (xs ++ ys) store
      = { store := (pushBatch user ys (pushBatch user xs store).store).store,
          accepted := (pushBatch user xs store).accepted
            + (pushBatch user ys (pushBatch user xs store).store).accepted,
          rejected := (pushBatch user xs store).rejected
            + (pushBatch user ys (pushBatch user xs store).store).rejected,
          rejectedIDs := (pushBatch user xs store).rejectedIDs
            ++ (pushBatch user ys (pushBatch user xs store).store).rejectedIDs } := by
  refine ⟨?_, ?_, ?_, ?_⟩
  · rw [pushBatch_eq]
    exact filter_length_partition (pushEntryRejected user) entries
  · rw [pushBatch_eq]
    simp
  · rw [pushBatch_eq]
    unfold pushSuccess
    simp
  · simp [pushBatch_eq, List.filter_append, List.foldl_append]

/-! ## Upsert idempotence (C7) -/

theorem setKey_idem {α : Type} (s : List (String × α)) (id : String) (v : α) :
    setKey (setKey s id v) id v = setKey s id v := by
  induction s with
  | nil => simp [setKey]
  | cons p rest ih =>
    by_cases h : p.1 = id
    · simp [setKey, h]
    · simp [setKey, h, ih]

theorem setKey_map_fst {α : Type} (s : List (String × α)) (id : String) (v : α) :
    (setKey s id v).map Prod.fst =
      if (s.map Prod.fst).contains id then s.map Prod.fst
      else s.map Prod.fst ++ [id] := by
  induction s with
  | nil => simp [setKey]
  | cons p rest ih =>
    by_cases h : p.1 = id
    · simp [setKey, h]
    · simp only [setKey, h, if_false, List.map_cons, ih, List.contains_cons]
      have hne : (id == p.1) = false := by
        simp
        exact fun hh => h hh.symm
      rw [hne]
      simp only [Bool.false_or]
      by_cases hm : (rest.map Prod.fst).contains id = true
      · rw [if_pos hm, if_pos hm]
      · rw [if_neg hm, if_neg hm]
        simp

theorem setKey_nodup_keys {α : Type} (s : List (String × α)) (id : String) (v : α)
    (h : (s.map Prod.fst).Nodup) : ((setKey s id v).map Prod.fst).Nodup := by
  rw [setKey_map_fst]
  by_cases hm : (s.map Prod.fst).contains id = true
  · rw [if_pos hm]
    exact h
  · rw [if_neg hm]
    have hid : id ∉ s.map Prod.fst := by
      simpa [List.elem_iff] using hm
    simp [List.nodup_append, h, hid]

/-- Claim C7: pushing the same record twice with identical content leaves
the store exactly as a single push does (the second push is a no-op
overwrite in place), and an upsert never duplicates a record id when the
store had no duplicate ids. -/
theorem push_same_entry_idempotent (user : User) (e : Entry) (store : EntryStore) :
    (pushBatch user [e] (pushBatch user [e] store).store).store
      = (pushBatch user [e] store).store ∧
    ((store.map Prod.fst).Nodup → ((pushBatch user [e] store).store.map Prod.fst).Nodup) := by
  rcases h : pushEntryRejected user e with _ | _
  · constructor
    · simp [pushBatch_eq, h, CreateEntry, setKey_idem]
    · intro hnd
      simp only [pushBatch_eq, List.filter_singleton, h, Bool.not_false, if_true,
        List.foldl_cons, List.foldl_nil]
      exact setKey_nodup_keys store e.record_id e hnd
  · constructor
    · simp [pushBatch_eq, h]
    · intro hnd
      simpa [pushBatch_eq, h] using hnd

/-- Closed instance of claim C7: op_east pushes the same entry twice into
the empty store; the second push changes nothing and the keys stay unique. -/
theorem push_same_entry_idempotent_witness :
    ((([] : EntryStore).map Prod.fst).Nodup) ∧
    (pushBatch exOpEast [exC7Entry] (pushBatch exOpEast [exC7Entry] ([] : EntryStore)).store).store
      = (pushBatch exOpEast [exC7Entry] ([] : EntryStore)).store ∧
    ((pushBatch exOpEast [exC7Entry] ([] : EntryStore)).store.map Prod.fst).Nodup :=
  ⟨by simp,
   (push_same_entry_idempotent exOpEast exC7Entry []).1,
   (push_same_entry_idempotent exOpEast exC7Entry []).2 (by simp)⟩

/-! ## Pull delta fetch (C3) -/

/-- Counterexample to claim C3 as stated: an admin pull with since = 5 over
a store whose only entry has updated_at = 10 but created_at = 0 returns
nothing, while the spec fetch on updated_at intersected with visibility
returns that entry: the code filters on created_at, not updated_at. -/
theorem pull_since_counterexample :
    pull exC3Store exAdmin (some 5) = ([], 0) ∧
    filterEntriesByRole (pullSpecFetch exC3Store 5) exAdmin = [exC3Entry] := by
  constructor <;> rfl

/-- Claim C3 (amended): a pull with since = T returns exactly the entries
whose created_at (not updated_at) is strictly greater than T, intersected
with the role visibility table, a pull without since returns all entries
intersected with the visibility table, and the reported count is the length
of the returned list. -/
theorem pull_since_created_at_visibility (store : EntryStore) (user : User) (t : Int) :
    (pull store user (some t)).1
      = visibleEntriesSpec ((getAllEntries store).filter (fun e => decide (t < e.created_at))) user ∧
    (pull store user none).1 = visibleEntriesSpec (getAllEntries store) user ∧
    (∀ s : Option Int, (pull store user s).2 = (pull store user s).1.length) := by
  refine ⟨?_, ?_, ?_⟩
  · show filterEntriesByRole (getEntriesSince store t) user = _
    rw [filterEntriesByRole_eq_spec]
    rfl
  · show filterEntriesByRole (getAllEntries store) user = _
    rw [filterEntriesByRole_eq_spec]
  · intro s
    cases s <;> rfl

/-! ## Server timestamps are never stamped (C4) -/

/-- Claim C4 is violated by the code: the push path persists the submitted
entry verbatim (never touching created_at or updated_at), so a
resubmission of record r1 carrying updated_at = 3 overwrites the stored
version whose updated_at was 5: updated_at decreases instead of being
advanced by the server. -/
theorem push_persists_client_timestamps_verbatim :
    getKey (pushBatch exOpEast [exC4New] exC4Store).store "r1" = some exC4New ∧
    exC4New.updated_at = 3 ∧ exC4Old.updated_at = 5 ∧
    exC4New.updated_at < exC4Old.updated_at := by
  refine ⟨?_, rfl, rfl, by decide⟩
  rfl

/-! ## Password policy (C8) -/

/-- Counterexample to claim C8 as stated: the eight-letter password with no
digit passes HashPassword (which checks only the length), refuting the claim
that the hash operation fails whenever a digit is missing. -/
theorem hashPassword_accepts_digitless_password :
    HashPassword "aaaaaaaa" = Except.ok (bcryptGenerateFromPassword "aaaaaaaa") ∧
    ("aaaaaaaa".data.any isNumberChar) = false := by
  constructor
  · rfl
  · decide

/-- Claim C8 (amended): HashPassword fails with the weak-password error
exactly when the password is shorter than the minimum length; the letter and
digit requirements are enforced by the separate ValidatePasswordStrength,
which succeeds exactly when the password meets all three requirements (and
which the handlers call before hashing). -/
theorem password_policy_split (password : String) :
    ((∃ d, HashPassword password = Except.ok d)
        ↔ MinPasswordLength ≤ password.utf8ByteSize) ∧
    (ValidatePasswordStrength password = Except.ok ()
        ↔ (MinPasswordLength ≤ password.utf8ByteSize ∧
            password.data.any isLetterChar = true ∧
            password.data.any isNumberChar = true)) := by
  constructor
  · unfold HashPassword
    by_cases hl : password.utf8ByteSize < MinPasswordLength
    · simp only [hl, if_true]
      constructor
      · rintro ⟨d, hd⟩
        exact absurd hd (by simp)
      · intro hge
        omega
    · simp only [hl, if_false]
      constructor
      · intro
        omega
      · intro hge
        exact ⟨bcryptGenerateFromPassword password, rfl⟩
  · unfold ValidatePasswordStrength
    by_cases hl : password.utf8ByteSize < MinPasswordLength
    · simp only [hl, if_true]
      constructor
      · intro hc
        exact absurd hc (by simp)
      · intro hc
        omega
    · by_cases hlet : password.data.any isLetterChar = true
      · by_cases hnum : password.data.any isNumberChar = true
        · simp [hl, hlet, hnum]
          omega
        · simp [hl, hlet, hnum]
      · simp [hl, hlet]

theorem hashPassword_ok_of_strength (pw : String)
    (h : ValidatePasswordStrength pw = Except.ok ()) :
    HashPassword pw = Except.ok (bcryptGenerateFromPassword pw) := by
  unfold ValidatePasswordStrength at h
  unfold HashPassword
  by_cases hl : pw.utf8ByteSize < MinPasswordLength
  · simp [hl] at h
  · simp [hl]

/-! ## Password reset (C9, C10) -/

/-- Claim C9: when the new password fails the strength policy, the reset
request is answered with a validation error, the password collection is
unchanged, and no store operation at all (no user read, no hash write) has
been performed. -/
theorem reset_password_weak_rejected_before_mutation
    (users : UserStore) (passwords : PasswordStore) (requester : User)
    (tid pw : String) (h : ValidatePasswordStrength pw ≠ Except.ok ()) :
    (∃ m, (resetPassword users passwords requester tid pw).result
        = Except.error (ApiError.validation m)) ∧
    (resetPassword users passwords requester tid pw).passwords = passwords ∧
    (resetPassword users passwords requester tid pw).ops = [] := by
  unfold resetPassword
  by_cases h0 : tid = "" ∨ pw = ""
  · rw [if_pos h0]
    exact ⟨⟨"User ID and new password are required", rfl⟩, rfl, rfl⟩
  · rw [if_neg h0]
    cases hv : ValidatePasswordStrength pw with
    | error msg =>
        exact ⟨⟨msg, rfl⟩, rfl, rfl⟩
    | ok u =>
        cases u
        exact absurd hv h

/-- Closed instance of claim C9: a supervisor resets the password of a
managed operator to the weak value abc; the request fails with a validation
error, and the password store and the operation trace stay empty. -/
theorem reset_password_weak_rejected_witness :
    (ValidatePasswordStrength "abc" ≠ Except.ok ()) ∧
    ((∃ m, (resetPassword exC10Users [] exSupervisor "user-op-east" "abc").result
        = Except.error (ApiError.validation m)) ∧
     (resetPassword exC10Users [] exSupervisor "user-op-east" "abc").passwords = [] ∧
     (resetPassword exC10Users [] exSupervisor "user-op-east" "abc").ops = []) :=
  ⟨by decide,
   reset_password_weak_rejected_before_mutation exC10Users [] exSupervisor
     "user-op-east" "abc" (by decide)⟩

/-- Claim C10: for a strong new password and an existing target, a requester
with the Supervisor role succeeds exactly when the target user id is among
its managed operators and is answered Forbidden otherwise (so a supervisor
whose managed list does not list itself or a peer can reset neither), while
a requester with the Admin role always passes the scope check. -/
theorem reset_password_role_scoping
    (users : UserStore) (passwords : PasswordStore) (requester : User)
    (tid pw : String)
    (hpw : ValidatePasswordStrength pw = Except.ok ())
    (htid : tid ≠ "") (hpw0 : pw ≠ "")
    (target : User) (htarget : getKey users tid = some target) :
    (requester.role = RoleSupervisor →
      ((tid ∈ requester.managed_operators →
          (resetPassword users passwords requester tid pw).result = Except.ok ()) ∧
       (tid ∉ requester.managed_operators →
          (resetPassword users passwords requester tid pw).result
            = Except.error ApiError.forbidden))) ∧
    (requester.role = RoleAdmin →
      (resetPassword users passwords requester tid pw).result = Except.ok ()) := by
  have hnot : ¬ (tid = "" ∨ pw = "") := by tauto
  have hhash := hashPassword_ok_of_strength pw hpw
  unfold resetPassword
  rw [if_neg hnot, hpw, htarget]
  constructor
  · intro hrole
    constructor
    · intro hmem
      have hc : ¬ (requester.role = RoleSupervisor ∧ tid ∉ requester.managed_operators) := by
        tauto
      rw [if_neg hc, hhash]
    · intro hmem
      rw [if_pos ⟨hrole, hmem⟩]
  · intro hrole
    have hne : requester.role ≠ RoleSupervisor := by
      rw [hrole]
      decide
    have hc : ¬ (requester.role = RoleSupervisor ∧ tid ∉ requester.managed_operators) :=
      fun hcc => hne hcc.1
    rw [if_neg hc, hhash]

/-- Closed instance of claim C10: supervisor john resets the password of the
managed operator op_east with a strong password and succeeds. -/
theorem reset_password_role_scoping_witness :
    (ValidatePasswordStrength "passw0rd" = Except.ok ()) ∧
    (getKey exC10Users "user-op-east" = some exOpEast) ∧
    (resetPassword exC10Users [] exSupervisor "user-op-east" "passw0rd").result
      = Except.ok () :=
  ⟨by decide, by decide,
   ((reset_password_role_scoping exC10Users [] exSupervisor "user-op-east" "passw0rd"
       (by decide) (by decide) (by decide) exOpEast (by decide)).1 rfl).1 (by decide)⟩

/-! ## Supervisor deletion leaves stale references (C6) -/

/-- Claim C6 is violated by the code: deleting supervisor sup-1, who manages
op-east, removes the sup-1 document but leaves op-east with supervisor_id
still equal to sup-1 — a reference to a user that no longer exists, exactly
the stale linkage the invariant forbids. -/
theorem delete_supervisor_leaves_stale_supervisor_id :
    deleteUserHandler exC6Store exAdmin "sup-1" = Except.ok exC6After ∧
    getKey exC6After "sup-1" = none ∧
    (getKey exC6After "op-east").map User.supervisor_id = some "sup-1" := by
  refine ⟨?_, rfl, rfl⟩
  rfl

end Gatekeeper
